import Mathlib

/-!
PR Watcher — Issue Aggregation & Notification State Engine.

Shallow embedding of the stateful core of `watcher.js`: the issue
normalizers (`getCursorbotComments`, `getCursorbotCommentsREST`,
`getPRIssueComments`, `getCIFailures`), the CI aggregate
(`checkCIStatus`), the merge-queue transition logic, and the per-poll
state update performed by `pollForIssues`.

Modelling conventions:
* JavaScript `null`/`undefined` object fields are `Option` values; a JS
  field that is left unset on some construction sites and is only ever
  consumed through truthiness tests (`resolved`, `outdated`,
  `nonBlocking`) is modelled as a `Bool` defaulting to `false`, which is
  observationally identical to the script's use of those fields.
* The network calls are the out-of-scope collaborators; each fetch is an
  explicit input.  A `try`/`catch` that degrades a category is modelled
  by the corresponding error constructor of the input type.
* JS `Set` (`seenIssueIds`) is a `List String` with membership-guarded
  insertion; `Array.prototype.includes`-style substring search
  (`String.prototype.includes`) is the structural function `strIncludes`.
-/

/-- JS `String.prototype.includes` on char lists: `pat` starts `l`. -/
def startsWithList : List Char → List Char → Bool
  | [], _ => true
  | _ :: _, [] => false
  | p :: ps, c :: cs => p == c && startsWithList ps cs

/-- JS `String.prototype.includes` on char lists: `pat` occurs in `l`. -/
def hasSubList (pat : List Char) : List Char → Bool
  | [] => pat.isEmpty
  | c :: cs => startsWithList pat (c :: cs) || hasSubList pat cs

/-- JS `s.includes(pat)`. -/
def strIncludes (s pat : String) : Bool :=
  hasSubList pat.data s.data

/-- JS `s.toLowerCase()` (i.e. `String.map Char.toLower`), expressed on
the character list so that the kernel can evaluate it. -/
def strLower (s : String) : String :=
  String.mk (s.data.map Char.toLower)

/-- The characters before the first `/` (JS `s.split('/')[0]`). -/
def takeUntilSlash : List Char → List Char
  | [] => []
  | c :: cs => if c == '/' then [] else c :: takeUntilSlash cs

/-- JS `a || b` on two nullable strings (`""` is falsy). -/
def jsOrOpt (a b : Option String) : Option String :=
  match a with
  | none => b
  | some s => if s == "" then b else some s

/-- JS `a || b` where the fallback is a plain string. -/
def jsOrStr (a : Option String) (b : String) : String :=
  match a with
  | none => b
  | some s => if s == "" then b else s

/-- JS `a || b` on nullable numbers (`0` is falsy). -/
def jsOrNat (a b : Option Nat) : Option Nat :=
  match a with
  | none => b
  | some n => if n == 0 then b else some n

/-- JS truthiness of a nullable string (`null` and `""` are falsy). -/
def strTruthy : Option String → Bool
  | none => false
  | some s => !(s == "")

/-- Roster `REVIEW_BOTS`: bot usernames watched for review comments. -/
def REVIEW_BOTS : List String := ["cursor", "codex-connector", "codex"]

/-- Defaults `DEFAULT_NON_BLOCKING_CI`: CI name patterns that are non-blocking. -/
def DEFAULT_NON_BLOCKING_CI : List String :=
  ["slack", "notification", "emoji", "add reaction", "coverage", "codecov",
   "deque_notify", "dequeue"]

/-- Function `getNonBlockingPatterns()`: defaults plus the `NON_BLOCKING_CI`
environment patterns (trimmed, lower-cased). -/
def getNonBlockingPatterns (envPatterns : List String) : List String :=
  DEFAULT_NON_BLOCKING_CI ++ envPatterns.map (fun p => strLower p.trim)

/-- Function `isNonBlockingCI(jobName)`: a falsy name is blocking; otherwise the
lower-cased name is matched by substring against the pattern set. -/
def isNonBlockingCI (envPatterns : List String) (jobName : Option String) : Bool :=
  match jobName with
  | none => false
  | some s =>
      if s == "" then false
      else (getNonBlockingPatterns envPatterns).any
        (fun pattern => strIncludes (strLower s) pattern)

/-- Function `isReviewBot(username)`: falsy usernames are not bots; otherwise
case-insensitive substring match against `REVIEW_BOTS`. -/
def isReviewBot (username : Option String) : Bool :=
  match username with
  | none => false
  | some u =>
      if u == "" then false
      else REVIEW_BOTS.any (fun bot => strIncludes (strLower u) bot)

/-- One comment node of a GraphQL review thread. -/
structure ThreadComment where
  databaseId : Nat
  body : String
  url : String
  author : Option String
  createdAt : String
deriving DecidableEq

/-- One GraphQL review thread with its resolution flags. -/
structure ReviewThread where
  isResolved : Bool
  isOutdated : Bool
  path : Option String
  line : Option Nat
  comments : List ThreadComment
deriving DecidableEq

/-- One REST review comment (the degraded fallback path). -/
structure RestComment where
  id : Nat
  position : Option Nat
  original_position : Option Nat
  path : Option String
  line : Option Nat
  original_line : Option Nat
  body : String
  html_url : String
  user : Option String
  created_at : String
deriving DecidableEq

/-- One REST issue (general PR) comment. -/
structure IssueComment where
  id : Nat
  body : String
  html_url : String
  user : Option String
deriving DecidableEq

/-- One GitHub check run (the fields `watcher.js` reads). -/
structure CheckRun where
  id : Nat
  name : String
  status : String
  conclusion : Option String
  appName : Option String
  html_url : Option String
  details_url : Option String
  outputSummary : Option String
  outputTitle : Option String
deriving DecidableEq

/-- One legacy commit status (the fields `watcher.js` reads). -/
structure CommitStatus where
  id : Nat
  context : Option String
  state : String
  description : Option String
  target_url : Option String
deriving DecidableEq

/-- Result shape of `checkMergeQueueStatus` (the fields the poll
notification logic reads; display-only fields are omitted). -/
structure MergeQueueStatus where
  merged : Bool
  inQueue : Bool
  state : Option String
  position : Option Nat
deriving DecidableEq

/-- The normalized issue record produced by the fetchers.  Fields that a
given kind leaves unset in JS are `none` (or `false` for the three
truthiness-tested booleans). -/
structure Issue where
  id : String
  type : String
  botType : Option String := none
  name : Option String := none
  source : Option String := none
  conclusion : Option String := none
  path : Option String := none
  line : Option Nat := none
  body : Option String := none
  url : Option String := none
  author : Option String := none
  createdAt : Option String := none
  description : Option String := none
  output : Option String := none
  resolved : Bool := false
  outdated : Bool := false
  nonBlocking : Bool := false
deriving DecidableEq

/-- The issue built for one bot comment of an unresolved GraphQL review
thread (`getCursorbotComments`, push site). -/
def mkReviewIssue (thread : ReviewThread) (c : ThreadComment) : Issue :=
  let author := c.author.getD "bot"
  { id := "review-" ++ Nat.repr c.databaseId
    type := "review_bot"
    botType := some (if strIncludes (strLower author) "codex" then "codex" else "cursorbot")
    path := thread.path
    line := thread.line
    body := some c.body
    url := some c.url
    author := some author
    createdAt := some c.createdAt
    resolved := thread.isResolved
    outdated := thread.isOutdated }

/-- Function `getCursorbotComments` (GraphQL primary path): threads that are
resolved or outdated are skipped entirely; bot comments of the remaining
threads are normalized. -/
def getCursorbotComments (threads : List ReviewThread) : List Issue :=
  threads.foldl
    (fun acc thread =>
      if thread.isResolved || thread.isOutdated then acc
      else acc ++
        ((thread.comments.filter (fun c => isReviewBot c.author)).map
          (mkReviewIssue thread)))
    []

/-- The issue built for one REST review comment
(`getCursorbotCommentsREST`, push site). -/
def mkRestIssue (c : RestComment) : Issue :=
  let author := c.user.getD "bot"
  { id := "review-" ++ Nat.repr c.id
    type := "review_bot"
    botType := some (if strIncludes (strLower author) "codex" then "codex" else "cursorbot")
    path := c.path
    line := jsOrNat c.line c.original_line
    body := some c.body
    url := some c.html_url
    author := some author
    createdAt := some c.created_at }

/-- A REST comment counts as outdated when its line position is null
while an original position existed. -/
def restOutdated (c : RestComment) : Bool :=
  c.position == none && !(c.original_position == none)

/-- Function `getCursorbotCommentsREST` (degraded fallback): filter to bot
comments, then skip the outdated ones. -/
def getCursorbotCommentsREST (reviewComments : List RestComment) : List Issue :=
  (reviewComments.filter (fun c => isReviewBot c.user)).foldl
    (fun acc c => if restOutdated c then acc else acc ++ [mkRestIssue c])
    []

/-- The issue built for one cursor general comment
(`getPRIssueComments`, push site). -/
def mkIssueCommentIssue (c : IssueComment) : Issue :=
  { id := "issue-" ++ Nat.repr c.id
    type := "cursorbot"
    name := some "PR Comment"
    body := some c.body
    url := some c.html_url
    author := c.user }

/-- Function `getPRIssueComments`: on fetch failure the category degrades to
empty; otherwise keep only comments whose author login contains
`cursor`. -/
def getPRIssueComments (fetch : Except Unit (List IssueComment)) : List Issue :=
  match fetch with
  | .error _ => []
  | .ok issueComments =>
      (issueComments.filter
        (fun c =>
          match c.user with
          | none => false
          | some u => strIncludes (strLower u) "cursor")).map mkIssueCommentIssue

/-- Outcome of the CI data fetches inside `getCIFailures` /
`checkCIStatus`: everything failed before any data arrived, the
commit-status fetch failed after the check runs arrived, or both fetches
succeeded. -/
inductive CIFetch where
  | failEarly : CIFetch
  | failStatuses : List CheckRun → CIFetch
  | ok : List CheckRun → List CommitStatus → CIFetch
deriving DecidableEq

/-- A check run that counts as a CI failure. -/
def checkRunFailing (run : CheckRun) : Bool :=
  run.conclusion == some "failure" || run.conclusion == some "cancelled" ||
    run.conclusion == some "timed_out"

/-- The issue built for one failing check run (`getCIFailures`). -/
def mkCheckRunIssue (envPatterns : List String) (run : CheckRun) : Issue :=
  { id := "ci-" ++ Nat.repr run.id
    type := "ci_failure"
    name := some run.name
    source := some (jsOrStr run.appName "CI")
    conclusion := run.conclusion
    url := jsOrOpt run.html_url run.details_url
    output := jsOrOpt run.outputSummary run.outputTitle
    nonBlocking := isNonBlockingCI envPatterns (some run.name) }

/-- JS `status.context?.split('/')[0] || 'CI'`. -/
def statusSource (context : Option String) : String :=
  match context with
  | none => "CI"
  | some s =>
      let h := String.mk (takeUntilSlash s.data)
      if h == "" then "CI" else h

/-- The issue built for one failing/error commit status
(`getCIFailures`). -/
def mkStatusIssue (envPatterns : List String) (st : CommitStatus) : Issue :=
  { id := "status-" ++ Nat.repr st.id
    type := "ci_failure"
    name := st.context
    source := some (statusSource st.context)
    conclusion := some st.state
    description := st.description
    url := st.target_url
    nonBlocking := isNonBlockingCI envPatterns st.context }

/-- The duplicate test `getCIFailures` applies to one accumulated issue:
same URL, or case-insensitive equality of the status context against the
issue name. -/
def isDuplicateOf (st : CommitStatus) (i : Issue) : Bool :=
  i.url == st.target_url ||
    i.name.map strLower == st.context.map strLower

/-- A commit status that counts as failing. -/
def statusFailing (st : CommitStatus) : Bool :=
  st.state == "failure" || st.state == "error"

/-- The commit-status accumulation step of `getCIFailures`. -/
def addStatusIssue (envPatterns : List String) (issues : List Issue)
    (st : CommitStatus) : List Issue :=
  if statusFailing st then
    if issues.any (isDuplicateOf st) then issues
    else issues ++ [mkStatusIssue envPatterns st]
  else issues

/-- Function `getCIFailures`: failing check runs become issues, then each
failing/error commit status is appended unless it duplicates an already
accumulated issue.  A fetch failure degrades to whatever was accumulated
before it (nothing when the first fetch failed). -/
def getCIFailures (envPatterns : List String) : CIFetch → List Issue
  | .failEarly => []
  | .failStatuses runs =>
      (runs.filter checkRunFailing).map (mkCheckRunIssue envPatterns)
  | .ok runs statuses =>
      statuses.foldl (addStatusIssue envPatterns)
        ((runs.filter checkRunFailing).map (mkCheckRunIssue envPatterns))

/-- Result shape of `checkCIStatus`. -/
structure CIStatusResult where
  allGreen : Bool
  pending : Nat
  passed : Nat
  failed : Nat
  nonBlockingFailed : Nat
  total : Nat
deriving DecidableEq

/-- The initial `result` object of `checkCIStatus`. -/
def ciInit : CIStatusResult :=
  { allGreen := false, pending := 0, passed := 0, failed := 0
    nonBlockingFailed := 0, total := 0 }

/-- The check-run tally step of `checkCIStatus`. -/
def countCheckRun (envPatterns : List String) (r : CIStatusResult)
    (run : CheckRun) : CIStatusResult :=
  let r := { r with total := r.total + 1 }
  if !(run.status == "completed") then { r with pending := r.pending + 1 }
  else if run.conclusion == some "success" || run.conclusion == some "skipped" ||
      run.conclusion == some "neutral" then
    { r with passed := r.passed + 1 }
  else if isNonBlockingCI envPatterns (some run.name) then
    { r with nonBlockingFailed := r.nonBlockingFailed + 1 }
  else
    { r with failed := r.failed + 1 }

/-- The commit-status tally step of `checkCIStatus`. -/
def countCommitStatus (envPatterns : List String) (r : CIStatusResult)
    (st : CommitStatus) : CIStatusResult :=
  let r := { r with total := r.total + 1 }
  if st.state == "pending" then { r with pending := r.pending + 1 }
  else if st.state == "success" then { r with passed := r.passed + 1 }
  else if isNonBlockingCI envPatterns st.context then
    { r with nonBlockingFailed := r.nonBlockingFailed + 1 }
  else
    { r with failed := r.failed + 1 }

/-- Function `checkCIStatus`: tally check runs and commit statuses, then set
`allGreen`.  On a fetch failure the `allGreen` assignment is never
reached, so the flag keeps its initial `false`. -/
def checkCIStatus (envPatterns : List String) : CIFetch → CIStatusResult
  | .failEarly => ciInit
  | .failStatuses runs => runs.foldl (countCheckRun envPatterns) ciInit
  | .ok runs statuses =>
      let r := statuses.foldl (countCommitStatus envPatterns)
        (runs.foldl (countCheckRun envPatterns) ciInit)
      { r with
        allGreen := decide (0 < r.total) && r.pending == 0 && r.failed == 0 }

/-- Value `currentQueueState` as computed in `pollForIssues`:
`merged ? 'MERGED' : inQueue ? state : null`. -/
def currentQueueState (m : MergeQueueStatus) : Option String :=
  if m.merged then some "MERGED"
  else if m.inQueue then m.state
  else none

/-- The three merge-queue notifications `pollForIssues` can send. -/
inductive QueueEvent where
  | merged : QueueEvent
  | removed : QueueEvent
  | queued : QueueEvent
deriving DecidableEq

/-- The merge-queue transition check of `pollForIssues`: guarded by
`last !== current && last !== null`, then merged / removed / added in
that order. -/
def queueEvent (last cur : Option String) : Option QueueEvent :=
  if last != cur && last != none then
    if cur == some "MERGED" then some .merged
    else if strTruthy last && !(strTruthy cur) then some .removed
    else if !(strTruthy last) && strTruthy cur then some .queued
    else none
  else none

/-- Outcome of the review-comment fetches: GraphQL succeeded, GraphQL
failed and the REST fallback succeeded, or both failed. -/
inductive ReviewFetch where
  | graphql : List ReviewThread → ReviewFetch
  | fallbackRest : List RestComment → ReviewFetch
  | fallbackFail : ReviewFetch
deriving DecidableEq

/-- The review issues a poll sees, across the two fetch paths. -/
def fetchReviewIssues : ReviewFetch → List Issue
  | .graphql threads => getCursorbotComments threads
  | .fallbackRest comments => getCursorbotCommentsREST comments
  | .fallbackFail => []

/-- The process-lifetime mutable state of `watcher.js`. -/
structure WatcherState where
  seenIssueIds : List String
  previouslyHadBlockingIssues : Bool
  notifiedReadyToMerge : Bool
  lastMergeQueueState : Option String
deriving DecidableEq

/-- The state at process start. -/
def initWatcherState : WatcherState :=
  { seenIssueIds := []
    previouslyHadBlockingIssues := false
    notifiedReadyToMerge := false
    lastMergeQueueState := none }

/-- Everything one call of `pollForIssues` receives from the platform. -/
structure PollFetches where
  review : ReviewFetch
  comments : Except Unit (List IssueComment)
  ciFails : CIFetch
  ciStat : CIFetch
  queue : MergeQueueStatus

/-- The observable effects of one call of `pollForIssues`. -/
structure PollOutput where
  allIssues : List Issue
  newIssues : List Issue
  newBlockingIssues : List Issue
  notifiedNewIssues : Bool
  hasBlockingIssues : Bool
  ciStatus : CIStatusResult
  readyFired : Bool
  queueEv : Option QueueEvent
deriving DecidableEq

/-- The JS `Set.add` on the seen-id list. -/
def addSeenId (seen : List String) (id : String) : List String :=
  if seen.contains id then seen else seen ++ [id]

/-- One call of `pollForIssues`, with the statement ordering of the
script: compute `allIssues` and `newIssues` against the old seen set;
send the new-blocking notification (resetting `notifiedReadyToMerge`);
add every id to the seen set; compute blocking / CI / queue status; run
the queue-transition check against `lastMergeQueueState`; run the
ready-to-merge check against the (possibly reset) flag and
`previouslyHadBlockingIssues`; finally store the queue state and the
blocking flag for the next poll. -/
def pollStep (envPatterns : List String) (st : WatcherState)
    (f : PollFetches) : WatcherState × PollOutput :=
  let allIssues := fetchReviewIssues f.review ++ getPRIssueComments f.comments ++
    getCIFailures envPatterns f.ciFails
  let newIssues := allIssues.filter (fun i => !(st.seenIssueIds.contains i.id))
  let newBlockingIssues := newIssues.filter (fun i => !i.nonBlocking)
  let notifiedNewIssues : Bool := decide (0 < newBlockingIssues.length)
  let notifiedReady1 : Bool :=
    if 0 < newBlockingIssues.length then false else st.notifiedReadyToMerge
  let seenAfter := allIssues.foldl (fun s i => addSeenId s i.id) st.seenIssueIds
  let blockingIssues := allIssues.filter (fun i => !i.nonBlocking)
  let hasBlockingIssues : Bool := decide (0 < blockingIssues.length)
  let ciStatus := checkCIStatus envPatterns f.ciStat
  let cur := currentQueueState f.queue
  let qev := queueEvent st.lastMergeQueueState cur
  let readyCond : Bool := !hasBlockingIssues && ciStatus.allGreen && !notifiedReady1
  let readyFired : Bool := readyCond && st.previouslyHadBlockingIssues
  let notifiedReady2 : Bool := if readyCond then true else notifiedReady1
  ({ seenIssueIds := seenAfter
     previouslyHadBlockingIssues := hasBlockingIssues
     notifiedReadyToMerge := notifiedReady2
     lastMergeQueueState := cur },
   { allIssues := allIssues
     newIssues := newIssues
     newBlockingIssues := newBlockingIssues
     notifiedNewIssues := notifiedNewIssues
     hasBlockingIssues := hasBlockingIssues
     ciStatus := ciStatus
     readyFired := readyFired
     queueEv := qev })

/-- A sequence of polls from a given state, collecting each poll's
output in order. -/
def runPolls (envPatterns : List String) (st : WatcherState) :
    List PollFetches → WatcherState × List PollOutput
  | [] => (st, [])
  | f :: fs =>
      let r := pollStep envPatterns st f
      let rest := runPolls envPatterns r.1 fs
      (rest.1, r.2 :: rest.2)

/-- Modelled from the spec: the duplicate-detection rule of claim C7 as
written, where a commit status is compared against the check-run issues
only (not against earlier commit statuses).  Used solely to compare the
spec's rule with the code's `getCIFailures`. -/
def getCIFailuresCheckRunDedup (envPatterns : List String)
    (runs : List CheckRun) (statuses : List CommitStatus) : List Issue :=
  let checkRunIssues := (runs.filter checkRunFailing).map (mkCheckRunIssue envPatterns)
  checkRunIssues ++
    (statuses.filter
      (fun st => statusFailing st && !(checkRunIssues.any (isDuplicateOf st)))).map
      (mkStatusIssue envPatterns)

/-! Helper lemmas. -/

/-- A push-unless-skipped loop is `filter` + `map`. -/
lemma foldl_push_filter {α β : Type} (p : α → Bool) (g : α → β) :
    ∀ (l : List α) (acc : List β),
      l.foldl (fun a c => if p c then a else a ++ [g c]) acc =
        acc ++ (l.filter (fun c => !p c)).map g := by
  intro l
  induction l with
  | nil => intro acc; simp
  | cons c cs ih =>
      intro acc
      by_cases h : p c = true
      · simp [h, ih]
      · simp only [Bool.not_eq_true] at h
        simp [h, ih]

/-- A skip-or-append-block loop is `filter` + `map` + `flatten`. -/
lemma foldl_append_filter {α β : Type} (p : α → Bool) (g : α → List β) :
    ∀ (l : List α) (acc : List β),
      l.foldl (fun a t => if p t then a else a ++ g t) acc =
        acc ++ ((l.filter (fun t => !p t)).map g).flatten := by
  intro l
  induction l with
  | nil => intro acc; simp
  | cons t ts ih =>
      intro acc
      by_cases h : p t = true
      · simp [h, ih]
      · simp only [Bool.not_eq_true] at h
        simp [h, ih]

/-- Characterization of the GraphQL review fetch: only threads that are
neither resolved nor outdated contribute, each through its bot comments. -/
lemma getCursorbotComments_eq (threads : List ReviewThread) :
    getCursorbotComments threads =
      ((threads.filter (fun t => !(t.isResolved || t.isOutdated))).map
        (fun t => (t.comments.filter (fun c => isReviewBot c.author)).map
          (mkReviewIssue t))).flatten := by
  unfold getCursorbotComments
  rw [foldl_append_filter]
  simp

/-- Characterization of the REST fallback fetch: only bot comments that
are not outdated contribute. -/
lemma getCursorbotCommentsREST_eq (cs : List RestComment) :
    getCursorbotCommentsREST cs =
      ((cs.filter (fun c => isReviewBot c.user)).filter
        (fun c => !restOutdated c)).map mkRestIssue := by
  unfold getCursorbotCommentsREST
  rw [foldl_push_filter]
  simp

/-- Every review issue of the GraphQL path has both flags false. -/
lemma graphql_flags (threads : List ReviewThread) (i : Issue)
    (hi : i ∈ getCursorbotComments threads) :
    i.resolved = false ∧ i.outdated = false := by
  rw [getCursorbotComments_eq] at hi
  rw [List.mem_flatten] at hi
  obtain ⟨l, hl, hil⟩ := hi
  rw [List.mem_map] at hl
  obtain ⟨t, ht, rfl⟩ := hl
  rw [List.mem_filter] at ht
  have hflags := ht.2
  simp only [Bool.not_eq_true', Bool.or_eq_false_iff] at hflags
  rw [List.mem_map] at hil
  obtain ⟨c, _, rfl⟩ := hil
  exact ⟨hflags.1, hflags.2⟩

/-- Every review issue of the REST path has both flags false. -/
lemma rest_flags (cs : List RestComment) (i : Issue)
    (hi : i ∈ getCursorbotCommentsREST cs) :
    i.resolved = false ∧ i.outdated = false := by
  rw [getCursorbotCommentsREST_eq] at hi
  rw [List.mem_map] at hi
  obtain ⟨c, _, rfl⟩ := hi
  exact ⟨rfl, rfl⟩

/-- Every general-comment issue has both flags false. -/
lemma comments_flags (fetch : Except Unit (List IssueComment)) (i : Issue)
    (hi : i ∈ getPRIssueComments fetch) :
    i.resolved = false ∧ i.outdated = false := by
  cases fetch with
  | error e => simp [getPRIssueComments] at hi
  | ok cs =>
      simp only [getPRIssueComments, List.mem_map] at hi
      obtain ⟨c, _, rfl⟩ := hi
      exact ⟨rfl, rfl⟩

/-- One commit-status step either keeps the list or appends the status
issue. -/
lemma mem_addStatusIssue {env : List String} {acc : List Issue}
    {st : CommitStatus} {i : Issue} (h : i ∈ addStatusIssue env acc st) :
    i ∈ acc ∨ i = mkStatusIssue env st := by
  unfold addStatusIssue at h
  split at h
  · split at h
    · exact .inl h
    · rw [List.mem_append] at h
      rcases h with h | h
      · exact .inl h
      · simp only [List.mem_singleton] at h
        exact .inr h
  · exact .inl h

/-- Membership in the commit-status fold. -/
lemma mem_foldl_addStatusIssue {env : List String} :
    ∀ (ss : List CommitStatus) (acc : List Issue) (i : Issue),
      i ∈ ss.foldl (addStatusIssue env) acc →
        i ∈ acc ∨ ∃ st ∈ ss, i = mkStatusIssue env st := by
  intro ss
  induction ss with
  | nil => intro acc i h; exact .inl h
  | cons s ss ih =>
      intro acc i h
      rw [List.foldl_cons] at h
      rcases ih _ _ h with h2 | ⟨st, hst, rfl⟩
      · rcases mem_addStatusIssue h2 with h3 | rfl
        · exact .inl h3
        · exact .inr ⟨s, List.mem_cons_self _ _, rfl⟩
      · exact .inr ⟨st, List.mem_cons_of_mem _ hst, rfl⟩

/-- Every CI issue has both flags false. -/
lemma ci_flags (env : List String) (fetch : CIFetch) (i : Issue)
    (hi : i ∈ getCIFailures env fetch) :
    i.resolved = false ∧ i.outdated = false := by
  cases fetch with
  | failEarly => simp [getCIFailures] at hi
  | failStatuses runs =>
      simp only [getCIFailures, List.mem_map] at hi
      obtain ⟨r, _, rfl⟩ := hi
      exact ⟨rfl, rfl⟩
  | ok runs statuses =>
      simp only [getCIFailures] at hi
      rcases mem_foldl_addStatusIssue statuses _ i hi with h | ⟨st, _, rfl⟩
      · rw [List.mem_map] at h
        obtain ⟨r, _, rfl⟩ := h
        exact ⟨rfl, rfl⟩
      · exact ⟨rfl, rfl⟩

/-- Inserting into the seen set never loses a member. -/
lemma mem_addSeenId {seen : List String} {id x : String} (h : x ∈ seen) :
    x ∈ addSeenId seen id := by
  unfold addSeenId
  split
  · exact h
  · exact List.mem_append_left _ h

/-- The seen-id fold never loses a member. -/
lemma mem_foldl_addSeenId :
    ∀ (l : List Issue) (seen : List String) (x : String), x ∈ seen →
      x ∈ l.foldl (fun s i => addSeenId s i.id) seen := by
  intro l
  induction l with
  | nil => intro seen x h; exact h
  | cons i is ih =>
      intro seen x h
      rw [List.foldl_cons]
      exact ih _ _ (mem_addSeenId h)

/-- The seen set grows across one poll. -/
lemma pollStep_seen_mono (env : List String) (st : WatcherState)
    (f : PollFetches) (x : String) (h : x ∈ st.seenIssueIds) :
    x ∈ (pollStep env st f).1.seenIssueIds :=
  mem_foldl_addSeenId _ _ _ h

/-- An already-seen id is filtered out of `newIssues`. -/
lemma pollStep_new_not_seen (env : List String) (st : WatcherState)
    (f : PollFetches) (i : Issue)
    (h : i ∈ (pollStep env st f).2.newIssues) : i.id ∉ st.seenIssueIds := by
  have h2 : i ∈ (fetchReviewIssues f.review ++ getPRIssueComments f.comments ++
      getCIFailures env f.ciFails).filter
        (fun i => !(st.seenIssueIds.contains i.id)) := h
  rw [List.mem_filter] at h2
  have h3 := h2.2
  simp only [Bool.not_eq_true'] at h3
  intro hmem
  have hc : st.seenIssueIds.contains i.id = true := List.elem_iff.mpr hmem
  rw [hc] at h3
  exact Bool.noConfusion h3

/-- The seen set grows across any run of polls. -/
lemma runPolls_seen_mono (env : List String) :
    ∀ (fs : List PollFetches) (st : WatcherState) (x : String),
      x ∈ st.seenIssueIds → x ∈ (runPolls env st fs).1.seenIssueIds := by
  intro fs
  induction fs with
  | nil => intro st x h; exact h
  | cons f fs ih =>
      intro st x h
      exact ih _ _ (pollStep_seen_mono env st f x h)

/-- A seen id never reappears among `newIssues` in any later poll. -/
lemma runPolls_no_renotify (env : List String) :
    ∀ (fs : List PollFetches) (st : WatcherState) (x : String),
      x ∈ st.seenIssueIds →
      ∀ out ∈ (runPolls env st fs).2, ∀ i ∈ out.newIssues, i.id ≠ x := by
  intro fs
  induction fs with
  | nil => intro st x _ out hout; simp [runPolls] at hout
  | cons f fs ih =>
      intro st x hx out hout i hi
      simp only [runPolls, List.mem_cons] at hout
      rcases hout with rfl | hout
      · intro heq
        exact pollStep_new_not_seen env st f i hi (heq ▸ hx)
      · exact ih _ _ (pollStep_seen_mono env st f x hx) out hout i hi

/-- A nonempty new-blocking set forces a nonempty blocking set. -/
lemma newBlocking_sub (allIssues : List Issue) (seen : List String)
    (h : 0 < ((allIssues.filter (fun i => !(seen.contains i.id))).filter
      (fun i => !i.nonBlocking)).length) :
    0 < (allIssues.filter (fun i => !i.nonBlocking)).length := by
  obtain ⟨i, hi⟩ := List.exists_mem_of_length_pos h
  rw [List.mem_filter] at hi
  obtain ⟨hi1, hi2⟩ := hi
  rw [List.mem_filter] at hi1
  exact List.length_pos_of_mem (List.mem_filter.mpr ⟨hi1.1, hi2⟩)

/-- Boolean shape of the ready check: the pre-reset of the notified
flag is invisible whenever the reset condition forces a blocking issue. -/
lemma ready_bool (c : Prop) [Decidable c] (blk : Bool)
    (hsub : c → blk = true) (g n p : Bool) :
    ((!blk && g && !(if c then false else n)) && p) = (!blk && g && !n && p) := by
  by_cases h : c
  · rw [if_pos h, hsub h]
    simp
  · rw [if_neg h]

/-- The ready notification fires exactly on the recovery condition, in
terms of the incoming state. -/
lemma pollStep_readyFired (env : List String) (st : WatcherState)
    (f : PollFetches) :
    (pollStep env st f).2.readyFired =
      (!(pollStep env st f).2.hasBlockingIssues &&
       (pollStep env st f).2.ciStatus.allGreen &&
       !st.notifiedReadyToMerge && st.previouslyHadBlockingIssues) := by
  simp only [pollStep]
  exact ready_bool _ _ (fun h => decide_eq_true (newBlocking_sub _ _ h)) _ _ _

/-- One check-run tally bumps `total` by one, bumps exactly one tally
bucket, and leaves `allGreen` alone. -/
lemma countCheckRun_shape (env : List String) (r : CIStatusResult)
    (run : CheckRun) :
    (countCheckRun env r run).total = r.total + 1 ∧
    (countCheckRun env r run).pending + (countCheckRun env r run).passed +
      (countCheckRun env r run).failed +
      (countCheckRun env r run).nonBlockingFailed =
      r.pending + r.passed + r.failed + r.nonBlockingFailed + 1 ∧
    (countCheckRun env r run).allGreen = r.allGreen := by
  unfold countCheckRun
  split
  · exact ⟨rfl, by simp only []; omega, rfl⟩
  · split
    · exact ⟨rfl, by simp only []; omega, rfl⟩
    · split
      · exact ⟨rfl, by simp only []; omega, rfl⟩
      · exact ⟨rfl, by simp only []; omega, rfl⟩

/-- One commit-status tally bumps `total` by one, bumps exactly one
tally bucket, and leaves `allGreen` alone. -/
lemma countCommitStatus_shape (env : List String) (r : CIStatusResult)
    (st : CommitStatus) :
    (countCommitStatus env r st).total = r.total + 1 ∧
    (countCommitStatus env r st).pending + (countCommitStatus env r st).passed +
      (countCommitStatus env r st).failed +
      (countCommitStatus env r st).nonBlockingFailed =
      r.pending + r.passed + r.failed + r.nonBlockingFailed + 1 ∧
    (countCommitStatus env r st).allGreen = r.allGreen := by
  unfold countCommitStatus
  split
  · exact ⟨rfl, by simp only []; omega, rfl⟩
  · split
    · exact ⟨rfl, by simp only []; omega, rfl⟩
    · split
      · exact ⟨rfl, by simp only []; omega, rfl⟩
      · exact ⟨rfl, by simp only []; omega, rfl⟩

/-- Folding the check-run tally adds the list length to `total` and to
the bucket sum, and keeps `allGreen`. -/
lemma foldl_countCheckRun_shape (env : List String) :
    ∀ (runs : List CheckRun) (r : CIStatusResult),
      (runs.foldl (countCheckRun env) r).total = r.total + runs.length ∧
      (runs.foldl (countCheckRun env) r).pending +
        (runs.foldl (countCheckRun env) r).passed +
        (runs.foldl (countCheckRun env) r).failed +
        (runs.foldl (countCheckRun env) r).nonBlockingFailed =
        r.pending + r.passed + r.failed + r.nonBlockingFailed + runs.length ∧
      (runs.foldl (countCheckRun env) r).allGreen = r.allGreen := by
  intro runs
  induction runs with
  | nil => intro r; exact ⟨rfl, rfl, rfl⟩
  | cons run rs ih =>
      intro r
      rw [List.foldl_cons]
      obtain ⟨h1, h2, h3⟩ := ih (countCheckRun env r run)
      obtain ⟨g1, g2, g3⟩ := countCheckRun_shape env r run
      refine ⟨?_, ?_, by rw [h3, g3]⟩
      · rw [h1, g1]; simp; omega
      · rw [h2, g2]; simp; omega

/-- Folding the commit-status tally adds the list length to `total` and
to the bucket sum, and keeps `allGreen`. -/
lemma foldl_countCommitStatus_shape (env : List String) :
    ∀ (sts : List CommitStatus) (r : CIStatusResult),
      (sts.foldl (countCommitStatus env) r).total = r.total + sts.length ∧
      (sts.foldl (countCommitStatus env) r).pending +
        (sts.foldl (countCommitStatus env) r).passed +
        (sts.foldl (countCommitStatus env) r).failed +
        (sts.foldl (countCommitStatus env) r).nonBlockingFailed =
        r.pending + r.passed + r.failed + r.nonBlockingFailed + sts.length ∧
      (sts.foldl (countCommitStatus env) r).allGreen = r.allGreen := by
  intro sts
  induction sts with
  | nil => intro r; exact ⟨rfl, rfl, rfl⟩
  | cons s ss ih =>
      intro r
      rw [List.foldl_cons]
      obtain ⟨h1, h2, h3⟩ := ih (countCommitStatus env r s)
      obtain ⟨g1, g2, g3⟩ := countCommitStatus_shape env r s
      refine ⟨?_, ?_, by rw [h3, g3]⟩
      · rw [h1, g1]; simp; omega
      · rw [h2, g2]; simp; omega

/-- On the successful CI fetch path, `allGreen` is literally the guard
over the final tallies. -/
lemma checkCIStatus_ok_allGreen (env : List String) (runs : List CheckRun)
    (sts : List CommitStatus) :
    (checkCIStatus env (.ok runs sts)).allGreen =
      (decide (0 < (checkCIStatus env (.ok runs sts)).total) &&
       (checkCIStatus env (.ok runs sts)).pending == 0 &&
       (checkCIStatus env (.ok runs sts)).failed == 0) := rfl

/-- Two strings with different leading characters stay different after
appending anything. -/
lemma append_ne_of_head_ne (a b s t : String) (c d : Char)
    (ha : a.data.head? = some c) (hb : b.data.head? = some d) (hcd : c ≠ d) :
    a ++ s ≠ b ++ t := by
  intro h
  have h2 : (a ++ s).data = (b ++ t).data := by rw [h]
  rw [String.data_append, String.data_append] at h2
  have h3 : (a.data ++ s.data).head? = (b.data ++ t.data).head? := by rw [h2]
  rw [List.head?_append, List.head?_append, ha, hb] at h3
  simp only [Option.or] at h3
  exact hcd (Option.some.inj h3)

/-! Concrete fixtures. -/

/-- A cursor-bot general PR comment. -/
def exampleCursorComment : IssueComment :=
  { id := 5, body := "Bug here", html_url := "https://g/x/pull/1#c5"
    user := some "cursor[bot]" }

/-- Not merged, not in queue. -/
def noQueueStatus : MergeQueueStatus :=
  { merged := false, inQueue := false, state := none, position := none }

/-- A failing blocking check run. -/
def exampleFailingRun : CheckRun :=
  { id := 10, name := "build", status := "completed"
    conclusion := some "failure", appName := none
    html_url := some "https://ci/build/10", details_url := none
    outputSummary := none, outputTitle := none }

/-- The same check run, now passing. -/
def examplePassingRun : CheckRun :=
  { id := 10, name := "build", status := "completed"
    conclusion := some "success", appName := none
    html_url := some "https://ci/build/10", details_url := none
    outputSummary := none, outputTitle := none }

/-- A poll with one new blocking bot comment and red CI. -/
def fetchRedPoll : PollFetches :=
  { review := .graphql [], comments := .ok [exampleCursorComment]
    ciFails := .ok [exampleFailingRun] [], ciStat := .ok [exampleFailingRun] []
    queue := noQueueStatus }

/-- A poll with no issues and green CI. -/
def fetchGreenPoll : PollFetches :=
  { review := .graphql [], comments := .ok []
    ciFails := .ok [] [], ciStat := .ok [examplePassingRun] []
    queue := noQueueStatus }

/-- A quiet poll with a given merge-queue status. -/
def queuePollFetch (q : MergeQueueStatus) : PollFetches :=
  { review := .graphql [], comments := .ok []
    ciFails := .ok [] [], ciStat := .ok [] [], queue := q }

/-- Queue entry `AWAITING_CHECKS`, position 2. -/
def queueAwaiting2 : MergeQueueStatus :=
  { merged := false, inQueue := true, state := some "AWAITING_CHECKS"
    position := some 2 }

/-- Queue entry `AWAITING_CHECKS`, position 0. -/
def queueAwaiting0 : MergeQueueStatus :=
  { merged := false, inQueue := true, state := some "AWAITING_CHECKS"
    position := some 0 }

/-- Queue entry `MERGEABLE`, position 0. -/
def queueMergeable0 : MergeQueueStatus :=
  { merged := false, inQueue := true, state := some "MERGEABLE"
    position := some 0 }

/-- The PR is merged. -/
def queueMerged : MergeQueueStatus :=
  { merged := true, inQueue := false, state := some "MERGED", position := none }

/-- State after recovering polls: previous poll had blocking issues, the
ready notification has not been sent. -/
def readyState : WatcherState :=
  { seenIssueIds := ["issue-5", "ci-10"]
    previouslyHadBlockingIssues := true
    notifiedReadyToMerge := false
    lastMergeQueueState := none }

/-- A state that has already seen the id `issue-5`. -/
def seededState : WatcherState :=
  { seenIssueIds := ["issue-5"]
    previouslyHadBlockingIssues := false
    notifiedReadyToMerge := false
    lastMergeQueueState := none }

/-- A poll on which every CI fetch fails. -/
def fetchCIDown : PollFetches :=
  { review := .graphql [], comments := .ok []
    ciFails := .failEarly, ciStat := .failEarly, queue := noQueueStatus }

/-- Check run `lint` with a URL (P7 scenario). -/
def lintRun : CheckRun :=
  { id := 1, name := "lint", status := "completed"
    conclusion := some "failure", appName := none
    html_url := some "https://ci/lint", details_url := none
    outputSummary := none, outputTitle := none }

/-- Commit status with context `lint` and the same target URL. -/
def lintStatus : CommitStatus :=
  { id := 2, context := some "lint", state := "failure"
    description := none, target_url := some "https://ci/lint" }

/-- First failing deploy commit status. -/
def deployStatusA : CommitStatus :=
  { id := 1, context := some "deploy", state := "failure"
    description := none, target_url := some "https://a" }

/-- Second failing deploy commit status: same context, different URL. -/
def deployStatusB : CommitStatus :=
  { id := 2, context := some "deploy", state := "failure"
    description := none, target_url := some "https://b" }

/-- A bot comment inside a review thread. -/
def exampleThreadComment : ThreadComment :=
  { databaseId := 42, body := "Severity: High", url := "https://g/rc/42"
    author := some "cursor[bot]", createdAt := "2024-01-01T00:00:00Z" }

/-- An unresolved review thread holding one bot comment. -/
def exampleThread : ReviewThread :=
  { isResolved := false, isOutdated := false, path := some "src/a.js"
    line := some 7, comments := [exampleThreadComment] }

/-- The same underlying platform comment, as seen by the REST path. -/
def exampleRestComment : RestComment :=
  { id := 42, position := some 7, original_position := some 7
    path := some "src/a.js", line := some 7, original_line := some 7
    body := "Severity: High", html_url := "https://g/rc/42"
    user := some "cursor[bot]", created_at := "2024-01-01T00:00:00Z" }

/-! Claim theorems. -/

/-- C1 counterexample: on the very first poll (the seen-id set is still
empty) with one new blocking bot comment and one new blocking CI
failure, `pollForIssues` does send the "new issues" notification — there
is no first-poll suppression in the code. -/
theorem c1_counterexample :
    initWatcherState.seenIssueIds = [] ∧
    (pollStep [] initWatcherState fetchRedPoll).2.newBlockingIssues.length = 2 ∧
    (pollStep [] initWatcherState fetchRedPoll).2.notifiedNewIssues = true := by
  decide

/-- C1 (amended): on every poll — the first poll included — the "new
issues" notification fires exactly when the newly-seen issues contain at
least one blocking issue, it carries exactly the new blocking issues,
and its firing resets `notifiedReadyToMerge` to false. -/
theorem c1_new_issues_notification (env : List String) (st : WatcherState)
    (f : PollFetches) :
    (pollStep env st f).2.notifiedNewIssues =
      decide (0 < (pollStep env st f).2.newBlockingIssues.length) ∧
    (pollStep env st f).2.newBlockingIssues =
      (pollStep env st f).2.newIssues.filter (fun i => !i.nonBlocking) ∧
    ((pollStep env st f).2.notifiedNewIssues = true →
      (pollStep env st f).1.notifiedReadyToMerge = false) := by
  refine ⟨rfl, rfl, ?_⟩
  simp only [pollStep]
  intro h
  have hlen := of_decide_eq_true h
  have hb := newBlocking_sub _ _ hlen
  simp only [if_pos hlen, decide_eq_true hb]
  simp

/-- C1 witness: the amended rule at the concrete first poll. -/
theorem c1_witness :
    (pollStep [] initWatcherState fetchRedPoll).1.notifiedReadyToMerge = false :=
  (c1_new_issues_notification [] initWatcherState fetchRedPoll).2.2 (by decide)

/-- C2: the transition out of the not-in-queue state (`lastMergeQueueState
= null`) can never emit any merge-queue event, because the guard
`lastMergeQueueState !== null` excludes it; over the four-poll Scenario-C
trace the engine therefore emits zero "added to queue" events and one
"merged" event, contradicting the claimed single "added to queue"
notification (which `watcher.js`'s own docs promise). -/
theorem c2_added_to_queue_never_fires :
    (∀ cur : Option String, queueEvent none cur = none) ∧
    ((runPolls [] initWatcherState
      [queuePollFetch queueAwaiting2, queuePollFetch queueAwaiting0,
       queuePollFetch queueMergeable0, queuePollFetch queueMerged]).2.map
        PollOutput.queueEv) = [none, none, none, some QueueEvent.merged] := by
  constructor
  · intro cur
    simp [queueEvent]
  · decide

/-- C3: the "ready" notification fires on a poll exactly when there is
no blocking issue, the CI aggregate is all green, the ready flag was not
already set entering the poll, and the immediately preceding poll had
blocking issues; its firing sets the flag; and over the trace
[blocking + red CI] → [clean + green] → [clean + green] it fires exactly
once, on the second poll. -/
theorem c3_ready_fires_once :
    (∀ (env : List String) (st : WatcherState) (f : PollFetches),
      (pollStep env st f).2.readyFired =
        (!(pollStep env st f).2.hasBlockingIssues &&
         (pollStep env st f).2.ciStatus.allGreen &&
         !st.notifiedReadyToMerge && st.previouslyHadBlockingIssues)) ∧
    (∀ (env : List String) (st : WatcherState) (f : PollFetches),
      (pollStep env st f).2.readyFired = true →
        (pollStep env st f).1.notifiedReadyToMerge = true) ∧
    ((runPolls [] initWatcherState
      [fetchRedPoll, fetchGreenPoll, fetchGreenPoll]).2.map
        PollOutput.readyFired) = [false, true, false] := by
  refine ⟨pollStep_readyFired, ?_, by decide⟩
  intro env st f h
  simp only [pollStep] at h ⊢
  rw [Bool.and_eq_true] at h
  rw [if_pos h.1]

/-- C3 witness: the ready rule applied on a concrete recovery poll. -/
theorem c3_witness :
    (pollStep [] readyState fetchGreenPoll).1.notifiedReadyToMerge = true :=
  c3_ready_fires_once.2.1 [] readyState fetchGreenPoll (by decide)

/-- C4: on the successful fetch path, `allGreen` holds iff the snapshot
has at least one check, no pending check and no blocking failure; it is
false whenever a blocking failure or a pending check exists; and it is a
function of `total`, `pending` and `failed` alone, so the
non-blocking-failure count never affects it. -/
theorem c4_allGreen_iff :
    (∀ (env : List String) (runs : List CheckRun) (sts : List CommitStatus),
      (checkCIStatus env (.ok runs sts)).allGreen =
        (decide (0 < (checkCIStatus env (.ok runs sts)).total) &&
         (checkCIStatus env (.ok runs sts)).pending == 0 &&
         (checkCIStatus env (.ok runs sts)).failed == 0)) ∧
    (∀ (env : List String) (runs : List CheckRun) (sts : List CommitStatus),
      0 < (checkCIStatus env (.ok runs sts)).failed ∨
        0 < (checkCIStatus env (.ok runs sts)).pending →
      (checkCIStatus env (.ok runs sts)).allGreen = false) ∧
    (∀ (env₁ : List String) (runs₁ : List CheckRun) (sts₁ : List CommitStatus)
       (env₂ : List String) (runs₂ : List CheckRun) (sts₂ : List CommitStatus),
      (checkCIStatus env₁ (.ok runs₁ sts₁)).total =
        (checkCIStatus env₂ (.ok runs₂ sts₂)).total →
      (checkCIStatus env₁ (.ok runs₁ sts₁)).pending =
        (checkCIStatus env₂ (.ok runs₂ sts₂)).pending →
      (checkCIStatus env₁ (.ok runs₁ sts₁)).failed =
        (checkCIStatus env₂ (.ok runs₂ sts₂)).failed →
      (checkCIStatus env₁ (.ok runs₁ sts₁)).allGreen =
        (checkCIStatus env₂ (.ok runs₂ sts₂)).allGreen) := by
  refine ⟨fun env runs sts => checkCIStatus_ok_allGreen env runs sts, ?_, ?_⟩
  · intro env runs sts h
    rw [checkCIStatus_ok_allGreen]
    rcases h with h | h
    · have : ((checkCIStatus env (.ok runs sts)).failed == 0) = false := by
        simp [Nat.pos_iff_ne_zero.mp h]
      simp [this]
    · have : ((checkCIStatus env (.ok runs sts)).pending == 0) = false := by
        simp [Nat.pos_iff_ne_zero.mp h]
      simp [this]
  · intro env₁ runs₁ sts₁ env₂ runs₂ sts₂ h1 h2 h3
    rw [checkCIStatus_ok_allGreen, checkCIStatus_ok_allGreen, h1, h2, h3]

/-- C4 witness: a blocking failure forces `allGreen = false`. -/
theorem c4_witness :
    (checkCIStatus [] (.ok [exampleFailingRun] [])).allGreen = false :=
  c4_allGreen_iff.2.1 [] [exampleFailingRun] [] (Or.inl (by decide))

/-- C5: the seen-id set only grows — across one poll and across any run
of polls — and an id already in the seen set never appears among
`newIssues` on any later poll. -/
theorem c5_seen_monotone :
    (∀ (env : List String) (st : WatcherState) (f : PollFetches) (x : String),
      x ∈ st.seenIssueIds → x ∈ (pollStep env st f).1.seenIssueIds) ∧
    (∀ (env : List String) (st : WatcherState) (f : PollFetches) (i : Issue),
      i ∈ (pollStep env st f).2.newIssues → i.id ∉ st.seenIssueIds) ∧
    (∀ (env : List String) (fs : List PollFetches) (st : WatcherState)
       (x : String),
      x ∈ st.seenIssueIds → x ∈ (runPolls env st fs).1.seenIssueIds) ∧
    (∀ (env : List String) (fs : List PollFetches) (st : WatcherState)
       (x : String),
      x ∈ st.seenIssueIds →
      ∀ out ∈ (runPolls env st fs).2, ∀ i ∈ out.newIssues, i.id ≠ x) :=
  ⟨pollStep_seen_mono, pollStep_new_not_seen,
   fun env => runPolls_seen_mono env, fun env => runPolls_no_renotify env⟩

/-- C5 witness: a previously seen id survives a concrete poll. -/
theorem c5_witness :
    "issue-5" ∈ (pollStep [] seededState fetchRedPoll).1.seenIssueIds :=
  c5_seen_monotone.1 [] seededState fetchRedPoll "issue-5" (by decide)

/-- C6: on every poll, no issue handed to the notification logic has
`resolved = true` or `outdated = true`; the GraphQL path contributes
nothing from resolved or outdated threads, and the REST fallback
contributes nothing from comments whose line position vanished while an
original position existed. -/
theorem c6_active_set_clean :
    (∀ (env : List String) (st : WatcherState) (f : PollFetches),
      ∀ i ∈ (pollStep env st f).2.allIssues,
        i.resolved = false ∧ i.outdated = false) ∧
    (∀ threads : List ReviewThread,
      getCursorbotComments threads =
        ((threads.filter (fun t => !(t.isResolved || t.isOutdated))).map
          (fun t => (t.comments.filter (fun c => isReviewBot c.author)).map
            (mkReviewIssue t))).flatten) ∧
    (∀ cs : List RestComment,
      getCursorbotCommentsREST cs =
        ((cs.filter (fun c => isReviewBot c.user)).filter
          (fun c => !restOutdated c)).map mkRestIssue) := by
  refine ⟨?_, getCursorbotComments_eq, getCursorbotCommentsREST_eq⟩
  intro env st f i hi
  have hi2 : i ∈ fetchReviewIssues f.review ++ getPRIssueComments f.comments ++
      getCIFailures env f.ciFails := hi
  rw [List.mem_append, List.mem_append] at hi2
  rcases hi2 with (h | h) | h
  · cases hrev : f.review with
    | graphql threads =>
        rw [hrev] at h
        exact graphql_flags threads i h
    | fallbackRest cs =>
        rw [hrev] at h
        exact rest_flags cs i h
    | fallbackFail =>
        rw [hrev] at h
        simp [fetchReviewIssues] at h
  · exact comments_flags f.comments i h
  · exact ci_flags env f.ciFails i h

/-- C6 witness: the invariant at a concrete poll and issue. -/
theorem c6_witness :
    (mkIssueCommentIssue exampleCursorComment).resolved = false ∧
    (mkIssueCommentIssue exampleCursorComment).outdated = false :=
  c6_active_set_clean.1 [] initWatcherState fetchRedPoll
    (mkIssueCommentIssue exampleCursorComment) (by decide)

/-- C7 counterexample: two failing commit statuses share the context
`deploy` and no check run exists; the code drops the second as a
duplicate of the *first status* (one resulting issue), while the
claimed rule — duplicates detected against check-run issues only —
would keep both (two issues). -/
theorem c7_counterexample :
    (getCIFailures [] (.ok [] [deployStatusA, deployStatusB])).length = 1 ∧
    (getCIFailuresCheckRunDedup [] [] [deployStatusA, deployStatusB]).length = 2 := by
  decide

/-- C7 (amended): a failing/error commit status is dropped iff its
target URL or case-insensitive context matches any *already accumulated*
CI issue — failing check runs and earlier commit statuses alike; the P7
lint scenario still normalizes to exactly one CiFailure issue. -/
theorem c7_dedup_rule (env : List String) (runs : List CheckRun)
    (sts : List CommitStatus) (st : CommitStatus) :
    getCIFailures env (.ok runs (sts ++ [st])) =
      (if statusFailing st then
        if (getCIFailures env (.ok runs sts)).any (isDuplicateOf st) then
          getCIFailures env (.ok runs sts)
        else getCIFailures env (.ok runs sts) ++ [mkStatusIssue env st]
      else getCIFailures env (.ok runs sts)) ∧
    (getCIFailures [] (.ok [lintRun] [lintStatus])).map Issue.id = ["ci-1"] := by
  constructor
  · show (sts ++ [st]).foldl (addStatusIssue env) _ = _
    rw [List.foldl_append]
    rfl
  · decide

/-- C8: issue identity is a fixed category prefix plus the platform
numeric id, is the same on the GraphQL and REST paths for the same
underlying comment, and ids never collide across the four categories. -/
theorem c8_stable_ids :
    (∀ (t : ReviewThread) (c : ThreadComment),
      (mkReviewIssue t c).id = "review-" ++ Nat.repr c.databaseId) ∧
    (∀ rc : RestComment, (mkRestIssue rc).id = "review-" ++ Nat.repr rc.id) ∧
    (∀ (t : ReviewThread) (c : ThreadComment) (rc : RestComment),
      rc.id = c.databaseId → (mkReviewIssue t c).id = (mkRestIssue rc).id) ∧
    (∀ cm : IssueComment,
      (mkIssueCommentIssue cm).id = "issue-" ++ Nat.repr cm.id) ∧
    (∀ (env : List String) (run : CheckRun),
      (mkCheckRunIssue env run).id = "ci-" ++ Nat.repr run.id) ∧
    (∀ (env : List String) (s : CommitStatus),
      (mkStatusIssue env s).id = "status-" ++ Nat.repr s.id) ∧
    (∀ m n : Nat,
      "review-" ++ Nat.repr m ≠ "issue-" ++ Nat.repr n ∧
      "review-" ++ Nat.repr m ≠ "ci-" ++ Nat.repr n ∧
      "review-" ++ Nat.repr m ≠ "status-" ++ Nat.repr n ∧
      "issue-" ++ Nat.repr m ≠ "ci-" ++ Nat.repr n ∧
      "issue-" ++ Nat.repr m ≠ "status-" ++ Nat.repr n ∧
      "ci-" ++ Nat.repr m ≠ "status-" ++ Nat.repr n) := by
  refine ⟨fun t c => rfl, fun rc => rfl, ?_, fun cm => rfl,
    fun env run => rfl, fun env s => rfl, ?_⟩
  · intro t c rc h
    show "review-" ++ Nat.repr c.databaseId = "review-" ++ Nat.repr rc.id
    rw [h]
  · intro m n
    exact ⟨append_ne_of_head_ne _ _ _ _ 'r' 'i' rfl rfl (by decide),
      append_ne_of_head_ne _ _ _ _ 'r' 'c' rfl rfl (by decide),
      append_ne_of_head_ne _ _ _ _ 'r' 's' rfl rfl (by decide),
      append_ne_of_head_ne _ _ _ _ 'i' 'c' rfl rfl (by decide),
      append_ne_of_head_ne _ _ _ _ 'i' 's' rfl rfl (by decide),
      append_ne_of_head_ne _ _ _ _ 'c' 's' rfl rfl (by decide)⟩

/-- C8 witness: the two fetch paths agree on a concrete comment. -/
theorem c8_witness :
    (mkReviewIssue exampleThread exampleThreadComment).id =
      (mkRestIssue exampleRestComment).id :=
  c8_stable_ids.2.2.1 exampleThread exampleThreadComment exampleRestComment
    (by decide)

/-- C9: a failed fetch degrades its category to empty (review fallback,
general comments, CI failures), a failed CI status fetch leaves
`allGreen` at its initial `false` — also when only the commit-status
half failed — and a poll whose CI aggregate is not all green can never
fire the ready notification. -/
theorem c9_degraded_fetch_safe :
    fetchReviewIssues .fallbackFail = [] ∧
    getPRIssueComments (.error ()) = [] ∧
    (∀ env : List String, getCIFailures env .failEarly = []) ∧
    (∀ env : List String, (checkCIStatus env .failEarly).allGreen = false) ∧
    (∀ (env : List String) (runs : List CheckRun),
      (checkCIStatus env (.failStatuses runs)).allGreen = false) ∧
    (∀ (env : List String) (st : WatcherState) (f : PollFetches),
      (checkCIStatus env f.ciStat).allGreen = false →
        (pollStep env st f).2.readyFired = false) := by
  refine ⟨rfl, rfl, fun env => rfl, fun env => rfl, ?_, ?_⟩
  · intro env runs
    exact (foldl_countCheckRun_shape env runs ciInit).2.2
  · intro env st f h
    rw [pollStep_readyFired]
    have h2 : (pollStep env st f).2.ciStatus.allGreen = false := h
    simp [h2]

/-- C9 witness: with every CI fetch down, even a recovery-shaped state
does not fire ready. -/
theorem c9_witness :
    (pollStep [] readyState fetchCIDown).2.readyFired = false :=
  c9_degraded_fetch_safe.2.2.2.2.2 [] readyState fetchCIDown (by decide)

/-- C10: the CI aggregate applies no deduplication: `total` is the check
run count plus the commit status count, every report lands in exactly
one tally bucket, and the P7 lint pair (one job reported through both
APIs) counts twice. -/
theorem c10_total_counts_both_apis :
    (∀ (env : List String) (runs : List CheckRun) (sts : List CommitStatus),
      (checkCIStatus env (.ok runs sts)).total = runs.length + sts.length ∧
      (checkCIStatus env (.ok runs sts)).total =
        (checkCIStatus env (.ok runs sts)).pending +
        (checkCIStatus env (.ok runs sts)).passed +
        (checkCIStatus env (.ok runs sts)).failed +
        (checkCIStatus env (.ok runs sts)).nonBlockingFailed) ∧
    (checkCIStatus [] (.ok [lintRun] [lintStatus])).total = 2 := by
  constructor
  · intro env runs sts
    have h1 := foldl_countCheckRun_shape env runs ciInit
    have h2 := foldl_countCommitStatus_shape env sts
      (runs.foldl (countCheckRun env) ciInit)
    have e1 : ciInit.total = 0 := rfl
    have e2 : ciInit.pending = 0 := rfl
    have e3 : ciInit.passed = 0 := rfl
    have e4 : ciInit.failed = 0 := rfl
    have e5 : ciInit.nonBlockingFailed = 0 := rfl
    constructor
    · show (sts.foldl (countCommitStatus env)
        (runs.foldl (countCheckRun env) ciInit)).total = runs.length + sts.length
      omega
    · show (sts.foldl (countCommitStatus env)
          (runs.foldl (countCheckRun env) ciInit)).total =
        (sts.foldl (countCommitStatus env)
          (runs.foldl (countCheckRun env) ciInit)).pending +
        (sts.foldl (countCommitStatus env)
          (runs.foldl (countCheckRun env) ciInit)).passed +
        (sts.foldl (countCommitStatus env)
          (runs.foldl (countCheckRun env) ciInit)).failed +
        (sts.foldl (countCommitStatus env)
          (runs.foldl (countCheckRun env) ciInit)).nonBlockingFailed
      omega
  · decide
